import Mathlib

/-!
Shallow embedding of the gs-exp-node server (src/server.js, with the earlier
revision in src/unnamed/part_000): an Express + Prisma backend holding a Post
table and a Like table, with route handlers for listing, creating and deleting
posts and for liking/unliking a post.

Request bodies are JSON values; machine-relevant JavaScript semantics
(truthiness, String.prototype.trim, parseInt) are embedded explicitly.
The storage layer (Prisma + the relational store) is modelled as an explicit
state `Db`; operations whose behaviour the repository only declares outside
src/ (the Like table's unique constraint, the Prisma error signals P2002 and
P2025) are modelled from the spec and marked as such in their doc comments.
-/

/-- A JavaScript JSON value, as far as the handlers inspect one. -/
inductive JsValue where
  | undef
  | null
  | str (s : String)
  | num (n : Int)
  | bool (b : Bool)
  | obj
deriving Repr, DecidableEq

/-- JavaScript truthiness of a value: `undefined`, `null`, `""`, `0` and
`false` are falsy, everything else (we model) is truthy. -/
def JsValue.truthy : JsValue → Bool
  | .undef => false
  | .null => false
  | .str s => decide (s ≠ "")
  | .num n => decide (n ≠ 0)
  | .bool b => b
  | .obj => true

/-- Whitespace characters stripped by JavaScript trim / skipped by parseInt
(the ASCII part, which is what the handlers can meet in practice). -/
def isJsSpace (c : Char) : Bool :=
  c = ' ' || c = '\t' || c = '\n' || c = '\r' || c = '\x0b' || c = '\x0c'

/-- JavaScript String.prototype.trim: drop leading and trailing whitespace. -/
def jsTrim (s : String) : String :=
  String.mk (((s.data.dropWhile isJsSpace).reverse.dropWhile isJsSpace).reverse)

/-- Calling `.trim()` on a JavaScript value: defined on strings, a TypeError
(modelled as `Except.error`) on every non-string. -/
def JsValue.trimCall : JsValue → Except Unit String
  | .str s => .ok (jsTrim s)
  | _ => .error ()

/-- Decimal value of a list of digit characters. -/
def digitsToNat (ds : List Char) : Nat :=
  ds.foldl (fun a c => a * 10 + (c.toNat - 48)) 0

/-- Consume an optional leading sign, as parseInt does. -/
def parseSign (t : List Char) : Int × List Char :=
  match t with
  | [] => (1, [])
  | c :: r => if c = '-' then (-1, r) else if c = '+' then (1, r) else (1, c :: r)

/-- A hexadecimal digit, as radix-less parseInt accepts after a 0x prefix. -/
def isHexDigitJs (c : Char) : Bool :=
  c.isDigit || ('a' ≤ c && c ≤ 'f') || ('A' ≤ c && c ≤ 'F')

/-- Value of one hexadecimal digit character. -/
def hexDigitVal (c : Char) : Nat :=
  if c.isDigit then c.toNat - 48
  else if 'a' ≤ c && c ≤ 'f' then c.toNat - 87
  else c.toNat - 55

/-- Value of a list of hexadecimal digit characters. -/
def hexToNat (hs : List Char) : Nat :=
  hs.foldl (fun a c => a * 16 + hexDigitVal c) 0

/-- Radix-less parseInt's 0x/0X autodetect (ECMA-262): the rest of the input
when it starts with the hex marker, none otherwise. -/
def hexPrefix (t : List Char) : Option (List Char) :=
  match t with
  | c1 :: c2 :: rest => if c1 = '0' && (c2 = 'x' || c2 = 'X') then some rest else none
  | _ => none

/-- JavaScript radix-less `parseInt(s)` as the handlers call it: skip leading
whitespace, read an optional sign, auto-detect a 0x/0X prefix as radix 16,
then read the longest prefix of digits of the detected radix; `none` models
`NaN` (no digits after the sign or hex marker). Values are kept as exact
integers: a JS double represents them exactly only below 2^53, so the theorem
about digit-prefixed ids carries that bound. -/
def parseIntJs (s : String) : Option Int :=
  let t := s.data.dropWhile isJsSpace
  let p := parseSign t
  match hexPrefix p.2 with
  | some rest =>
      let hs := rest.takeWhile isHexDigitJs
      if hs.isEmpty then none else some (p.1 * (hexToNat hs : Int))
  | none =>
      let ds := p.2.takeWhile Char.isDigit
      if ds.isEmpty then none else some (p.1 * (digitsToNat ds : Int))

/-- A row of the Post table (prisma/migrations: id SERIAL PK, content text,
imageUrl/userId nullable text, createdAt/updatedAt timestamps, here Nat). -/
structure Post where
  id : Nat
  content : String
  imageUrl : Option String
  userId : Option String
  createdAt : Nat
  updatedAt : Nat
deriving Repr, DecidableEq

/-- A row of the Like table. Modelled from the spec: the Like table's
migration is not under src/; the spec gives
Like(id PK, postId references Post, userId text, unique(postId, userId)).
`postId` is an Int because the handlers pass any parseInt result through. -/
structure Like where
  id : Nat
  postId : Int
  userId : String
deriving Repr, DecidableEq

/-- The storage state: both tables in insertion order, the auto-increment
counters, and the clock used for server-assigned timestamps. -/
structure Db where
  posts : List Post
  likes : List Like
  nextPostId : Nat
  nextLikeId : Nat
  now : Nat
deriving Repr, DecidableEq

/-- The empty store with auto-increment counters starting at 1 (SERIAL). -/
def emptyDb : Db := ⟨[], [], 1, 1, 0⟩

/-- Error signals of the storage client that the handlers distinguish.
Modelled from the spec: P2002 is the unique-constraint violation, P2025 the
record-not-found signal. -/
inductive PrismaErr where
  | P2002
  | P2025
deriving Repr, DecidableEq

/-- Number of Like rows referencing a post: prisma.like.count({where:{postId}})
and the `_count.likes` include of the list endpoint. -/
def likeCountOf (postId : Int) (db : Db) : Nat :=
  (db.likes.filter (fun l => l.postId == postId)).length

/-- Modelled from the spec: prisma.like.create({data:{postId,userId}}) against
the unique(postId, userId) constraint declared in the Prisma schema (not under
src/) — inserting a duplicate pair fails with P2002, otherwise the row is
appended with a fresh id. -/
def likeCreate (postId : Int) (u : String) (db : Db) : Except PrismaErr Db :=
  if db.likes.any (fun l => l.postId == postId && l.userId == u) then
    .error .P2002
  else
    .ok { db with likes := db.likes ++ [⟨db.nextLikeId, postId, u⟩],
                  nextLikeId := db.nextLikeId + 1 }

/-- Modelled from the spec: prisma.like.deleteMany({where:{postId,userId}})
removes every matching row; deleting zero rows is not an error. -/
def likeDeleteMany (postId : Int) (u : String) (db : Db) : Db :=
  { db with likes := db.likes.filter (fun l => !(l.postId == postId && l.userId == u)) }

/-- Modelled from the spec: prisma.post.delete({where:{id}}) removes the row
with that id, and signals P2025 (record not found) when no such row exists. -/
def postDelete (id : Int) (db : Db) : Except PrismaErr Db :=
  if db.posts.any (fun p => (p.id : Int) == id) then
    .ok { db with posts := db.posts.filter (fun p => !((p.id : Int) == id)) }
  else
    .error .P2025

/-- Modelled from the spec: prisma.post.create assigns the next serial id and
the server clock to createdAt/updatedAt and appends the row. -/
def postCreate (c : String) (img uid : Option String) (db : Db) : Db × Post :=
  let p : Post := ⟨db.nextPostId, c, img, uid, db.now, db.now⟩
  ({ db with posts := db.posts ++ [p], nextPostId := db.nextPostId + 1 }, p)

/-- JavaScript `v || null` on an optional string field of the body: a missing
field or an empty (falsy) string becomes null. -/
def coalesceNull (v : Option String) : Option String :=
  match v with
  | some s => if s = "" then none else some s
  | none => none

/-- A post as the list endpoint formats it. -/
structure FormattedPost where
  id : Nat
  content : String
  imageUrl : Option String
  userId : Option String
  createdAt : Nat
  updatedAt : Nat
  likeCount : Nat
  isLiked : Bool
deriving Repr, DecidableEq

/-- Response bodies the handlers produce. -/
inductive ResBody where
  | errMsg (msg : String)
  | post (p : Post)
  | posts (ps : List FormattedPost)
  | likeInfo (likeCount : Nat) (isLiked : Bool)
  | message (msg : String)
deriving Repr, DecidableEq

/-- An HTTP response: status code and JSON body. -/
structure Response where
  status : Nat
  body : ResBody
deriving Repr, DecidableEq

/-- Stable insertion of a post into a list sorted by createdAt descending:
the new element goes in front of the first element whose createdAt is not
greater than its own. -/
def insertDesc (x : Post) : List Post → List Post
  | [] => [x]
  | y :: ys => if y.createdAt ≤ x.createdAt then x :: y :: ys else y :: insertDesc x ys

/-- Modelled from the spec: findMany({orderBy:{createdAt:"desc"}}) returns all
posts ordered by createdAt descending; the spec fixes the tie-break to be
stable (insertion order), so the sort is a stable insertion sort. -/
def sortByCreatedAtDesc : List Post → List Post
  | [] => []
  | x :: xs => insertDesc x (sortByCreatedAtDesc xs)

/-- The ordering the list endpoint promises on rows: newer createdAt first,
ties broken by insertion order, i.e. by ascending id. -/
def postOrder (a b : Post) : Prop :=
  b.createdAt < a.createdAt ∨ (a.createdAt = b.createdAt ∧ a.id < b.id)

/-- The same ordering read off the formatted output rows. -/
def formattedOrder (a b : FormattedPost) : Prop :=
  b.createdAt < a.createdAt ∨ (a.createdAt = b.createdAt ∧ a.id < b.id)

/-- Formatting of one post by GET /api/posts (src/server.js lines 69-78):
likeCount counts all Like rows of the post, and isLiked is the truthiness
branch `userId ? post.likes.length > 0 : false` where the included likes are
filtered by userId. -/
def formatPost (uq : Option String) (likes : List Like) (p : Post) : FormattedPost :=
  { id := p.id, content := p.content, imageUrl := p.imageUrl, userId := p.userId,
    createdAt := p.createdAt, updatedAt := p.updatedAt,
    likeCount := (likes.filter (fun l => l.postId == (p.id : Int))).length,
    isLiked :=
      match uq with
      | some u =>
          if u = "" then false
          else likes.any (fun l => l.postId == (p.id : Int) && l.userId == u)
      | none => false }

/-- GET /api/posts (src/server.js lines 46-85): fetch all posts newest first
and format them, attaching like state for the optional userId query value. -/
def listPosts (uq : Option String) (db : Db) : Response :=
  ⟨200, .posts ((sortByCreatedAtDesc db.posts).map (formatPost uq db.likes))⟩

/-- POST /api/posts (src/server.js lines 92-113): reject falsy or blank
content with 400; a truthy non-string content makes `content.trim()` throw,
which the catch branch turns into 500; otherwise insert the trimmed content
with null-coalesced optional fields and answer 201 with the created row. -/
def createPost (content : JsValue) (imageUrl userId : Option String) (db : Db) :
    Db × Response :=
  if content.truthy = false then
    (db, ⟨400, .errMsg "投稿内容を入力してください"⟩)
  else
    match content.trimCall with
    | .error _ => (db, ⟨500, .errMsg "投稿の作成に失敗しました"⟩)
    | .ok t =>
        if t = "" then
          (db, ⟨400, .errMsg "投稿内容を入力してください"⟩)
        else
          let r := postCreate t (coalesceNull imageUrl) (coalesceNull userId) db
          (r.1, ⟨201, .post r.2⟩)

/-- DELETE /api/posts/:id after the id has been parsed (src/server.js lines
128-141): delete the row, mapping P2025 to 404 and other failures to 500. -/
def deletePostById (id : Int) (db : Db) : Db × Response :=
  match postDelete id db with
  | .ok db2 => (db2, ⟨200, .message "投稿を削除しました"⟩)
  | .error .P2025 => (db, ⟨404, .errMsg "投稿が見つかりません"⟩)
  | .error _ => (db, ⟨500, .errMsg "投稿の削除に失敗しました"⟩)

/-- DELETE /api/posts/:id (src/server.js lines 120-142): parseInt the path
segment, 400 on NaN, then delete by id. -/
def deletePost (idParam : String) (db : Db) : Db × Response :=
  match parseIntJs idParam with
  | none => (db, ⟨400, .errMsg "無効なIDです"⟩)
  | some id => deletePostById id db

/-- POST /api/posts/:id/like after the id has been parsed (src/server.js lines
158-183): 400 on a falsy userId, 400 on the P2002 duplicate signal, otherwise
insert the like and answer 201 with the fresh count and isLiked true. -/
def likePostById (postId : Int) (userId : Option String) (db : Db) : Db × Response :=
  match userId with
  | none => (db, ⟨400, .errMsg "ユーザーIDが必要です"⟩)
  | some u =>
      if u = "" then (db, ⟨400, .errMsg "ユーザーIDが必要です"⟩)
      else
        match likeCreate postId u db with
        | .error .P2002 => (db, ⟨400, .errMsg "すでにいいねしています"⟩)
        | .error _ => (db, ⟨500, .errMsg "いいねに失敗しました"⟩)
        | .ok db2 => (db2, ⟨201, .likeInfo (likeCountOf postId db2) true⟩)

/-- POST /api/posts/:id/like (src/server.js lines 149-184): parseInt the path
segment, 400 on NaN, then run the like operation. -/
def likePost (idParam : String) (userId : Option String) (db : Db) : Db × Response :=
  match parseIntJs idParam with
  | none => (db, ⟨400, .errMsg "無効な投稿IDです"⟩)
  | some postId => likePostById postId userId db

/-- DELETE /api/posts/:id/like after the id has been parsed (src/server.js
lines 200-221): 400 on a falsy userId, otherwise deleteMany the pair (zero
deletions allowed) and answer 200 with the fresh count and isLiked false. -/
def unlikePostById (postId : Int) (userId : Option String) (db : Db) : Db × Response :=
  match userId with
  | none => (db, ⟨400, .errMsg "ユーザーIDが必要です"⟩)
  | some u =>
      if u = "" then (db, ⟨400, .errMsg "ユーザーIDが必要です"⟩)
      else
        let db2 := likeDeleteMany postId u db
        (db2, ⟨200, .likeInfo (likeCountOf postId db2) false⟩)

/-- DELETE /api/posts/:id/like (src/server.js lines 191-222): parseInt the
path segment, 400 on NaN, then run the unlike operation. -/
def unlikePost (idParam : String) (userId : Option String) (db : Db) : Db × Response :=
  match parseIntJs idParam with
  | none => (db, ⟨400, .errMsg "無効な投稿IDです"⟩)
  | some postId => unlikePostById postId userId db

/-- The listening port of the current server (src/server.js line 14 is the
constant `const PORT = 8888;`): as a function of the environment's PORT value
it ignores the environment. -/
def listeningPort (_env : Option Nat) : Nat := 8888

/-- The listening port of the earlier revision (src/unnamed/part_000 line 51:
`process.env.PORT || 8888`): the environment value (a string) when truthy,
else the number 8888. -/
def listeningPortPrev (env : Option String) : JsValue :=
  match env with
  | some s => if s = "" then .num 8888 else .str s
  | none => .num 8888

/-- Modelled from the spec: "a single configuration value selects the
listening port (default 8888 if unset)". -/
def specListeningPort (env : Option Nat) : Nat :=
  match env with
  | some p => p
  | none => 8888

/-- A store holding one post and no likes, used by concrete witnesses. -/
def dbOne : Db := ⟨[⟨1, "hello", none, none, 0, 0⟩], [], 2, 1, 5⟩

/-- A store holding two posts with colliding createdAt timestamps and one
like, used by concrete witnesses. -/
def dbTwo : Db :=
  ⟨[⟨1, "a", none, none, 5, 5⟩, ⟨2, "b", none, none, 5, 5⟩], [⟨1, 1, "u1"⟩], 3, 2, 9⟩

/-- Claim C2: a create-post request whose content is missing (undefined or null),
empty, or whitespace-only after trimming is answered 400 with an error
message; the store is untouched. -/
theorem C2_blank_content_rejected (content : JsValue) (imageUrl userId : Option String)
    (db : Db)
    (h : content = .undef ∨ content = .null ∨ ∃ s, content = .str s ∧ jsTrim s = "") :
    createPost content imageUrl userId db = (db, ⟨400, .errMsg "投稿内容を入力してください"⟩) := by
  rcases h with rfl | rfl | ⟨s, rfl, hs⟩
  · simp [createPost, JsValue.truthy]
  · simp [createPost, JsValue.truthy]
  · by_cases hse : s = ""
    · simp [createPost, JsValue.truthy, hse]
    · simp [createPost, JsValue.truthy, hse, JsValue.trimCall, hs]

/-- Witness for C2 at the whitespace-only content " ". -/
theorem C2_blank_content_rejected_witness :
    createPost (JsValue.str " ") none none emptyDb =
      (emptyDb, ⟨400, .errMsg "投稿内容を入力してください"⟩) :=
  C2_blank_content_rejected (JsValue.str " ") none none emptyDb
    (Or.inr (Or.inr ⟨" ", rfl, by decide⟩))

/-- Claim C9: a create-post request whose content is truthy but not a string makes
the trim call throw, so the catch branch answers 500 and no row is
persisted. -/
theorem C9_nonstring_content_500 (content : JsValue) (imageUrl userId : Option String)
    (db : Db) (ht : content.truthy = true) (hns : ∀ s, content ≠ JsValue.str s) :
    createPost content imageUrl userId db = (db, ⟨500, .errMsg "投稿の作成に失敗しました"⟩) := by
  cases content with
  | str s => exact absurd rfl (hns s)
  | undef => simp [JsValue.truthy] at ht
  | null => simp [JsValue.truthy] at ht
  | num n => simp [createPost, ht, JsValue.trimCall]
  | bool b => simp [createPost, ht, JsValue.trimCall]
  | obj => simp [createPost, ht, JsValue.trimCall]

/-- Witness for C9 at the numeric content 5. -/
theorem C9_nonstring_content_500_witness :
    createPost (JsValue.num 5) none none emptyDb =
      (emptyDb, ⟨500, .errMsg "投稿の作成に失敗しました"⟩) :=
  C9_nonstring_content_500 (JsValue.num 5) none none emptyDb (by decide)
    (fun s h => JsValue.noConfusion h)

/-- Counterexample for C6: supplying the empty string as imageUrl (and userId) is
not kept as the supplied value — the null-coalescing `imageUrl || null` turns
it into null, so the created record differs from the claim at this input. -/
theorem C6_counterexample :
    (createPost (JsValue.str "hello") (some "") (some "") emptyDb).2 =
      ⟨201, .post ⟨1, "hello", none, none, 0, 0⟩⟩ ∧
    (some "" : Option String) ≠ none := by
  exact ⟨by decide, by decide⟩

/-- Claim C6 (amended): a create-post request with non-blank string content is
answered 201 with the created record, whose content is the trimmed input,
whose id and timestamps are server-assigned, and whose imageUrl and userId
are the supplied values when those are non-empty, and null when absent or
empty (falsy). -/
theorem C6_create_valid_post (s : String) (imageUrl userId : Option String) (db : Db)
    (h : jsTrim s ≠ "") :
    ∃ p : Post,
      createPost (JsValue.str s) imageUrl userId db =
        ({ db with posts := db.posts ++ [p], nextPostId := db.nextPostId + 1 },
          ⟨201, .post p⟩) ∧
      p.content = jsTrim s ∧
      p.id = db.nextPostId ∧ p.createdAt = db.now ∧ p.updatedAt = db.now ∧
      (∀ v, imageUrl = some v → v ≠ "" → p.imageUrl = some v) ∧
      ((imageUrl = none ∨ imageUrl = some "") → p.imageUrl = none) ∧
      (∀ v, userId = some v → v ≠ "" → p.userId = some v) ∧
      ((userId = none ∨ userId = some "") → p.userId = none) := by
  have hs : s ≠ "" := by
    intro he
    exact h (by simp [he, jsTrim, isJsSpace])
  refine ⟨⟨db.nextPostId, jsTrim s, coalesceNull imageUrl, coalesceNull userId, db.now, db.now⟩,
    ?_, rfl, rfl, rfl, rfl, ?_, ?_, ?_, ?_⟩
  · simp [createPost, JsValue.truthy, hs, JsValue.trimCall, h, postCreate]
  · intro v hv hne
    subst hv
    simp [coalesceNull, hne]
  · rintro (rfl | rfl) <;> simp [coalesceNull]
  · intro v hv hne
    subst hv
    simp [coalesceNull, hne]
  · rintro (rfl | rfl) <;> simp [coalesceNull]

/-- Witness for C6 at content " hi " with imageUrl "x" and no userId. -/
theorem C6_create_valid_post_witness :
    ∃ p : Post,
      createPost (JsValue.str " hi ") (some "x") none emptyDb =
        ({ emptyDb with posts := emptyDb.posts ++ [p], nextPostId := emptyDb.nextPostId + 1 },
          ⟨201, .post p⟩) ∧
      p.content = jsTrim " hi " ∧
      p.id = emptyDb.nextPostId ∧ p.createdAt = emptyDb.now ∧ p.updatedAt = emptyDb.now ∧
      (∀ v, (some "x" : Option String) = some v → v ≠ "" → p.imageUrl = some v) ∧
      (((some "x" : Option String) = none ∨ (some "x" : Option String) = some "") →
        p.imageUrl = none) ∧
      (∀ v, (none : Option String) = some v → v ≠ "" → p.userId = some v) ∧
      (((none : Option String) = none ∨ (none : Option String) = some "") →
        p.userId = none) :=
  C6_create_valid_post " hi " (some "x") none emptyDb (by decide)

/-- Counterexample for C8: with the environment value set to 3000, the current
server still listens on 8888, while the spec's port selection yields 3000. -/
theorem C8_counterexample :
    listeningPort (some 3000) = 8888 ∧ specListeningPort (some 3000) = 3000 ∧
    (8888 : Nat) ≠ 3000 := by
  exact ⟨rfl, rfl, by decide⟩

/-- Claim C8 (amended): the current server's listening port is the constant 8888 and
ignores the environment (it agrees with the spec's default when the value is
unset); only the earlier revision read the environment value, with default
8888. -/
theorem C8_port_constant :
    (∀ env, listeningPort env = 8888) ∧
    listeningPort none = specListeningPort none ∧
    listeningPortPrev none = JsValue.num 8888 ∧
    listeningPortPrev (some "3000") = JsValue.str "3000" := by
  exact ⟨fun _ => rfl, rfl, rfl, by decide⟩

/-- Claim C1: liking a pair with no existing Like row succeeds with 201 and
isLiked true, appending exactly one row; an immediately repeated like is
rejected with 400 by the uniqueness signal, leaving the store, the Like rows
and the like count untouched. -/
theorem C1_like_twice (idParam : String) (u : String) (pid : Int) (db : Db)
    (hp : parseIntJs idParam = some pid) (hu : u ≠ "")
    (h0 : db.likes.any (fun l => l.postId == pid && l.userId == u) = false) :
    likePost idParam (some u) db =
      ({ db with likes := db.likes ++ [⟨db.nextLikeId, pid, u⟩], nextLikeId := db.nextLikeId + 1 },
        ⟨201, .likeInfo (likeCountOf pid db + 1) true⟩) ∧
    likePost idParam (some u) (likePost idParam (some u) db).1 =
      ((likePost idParam (some u) db).1, ⟨400, .errMsg "すでにいいねしています"⟩) ∧
    (likePost idParam (some u) db).1.likes = db.likes ++ [⟨db.nextLikeId, pid, u⟩] ∧
    likeCountOf pid (likePost idParam (some u) (likePost idParam (some u) db).1).1 =
      likeCountOf pid (likePost idParam (some u) db).1 := by
  have e1 : likePost idParam (some u) db =
      ({ db with likes := db.likes ++ [⟨db.nextLikeId, pid, u⟩], nextLikeId := db.nextLikeId + 1 },
        ⟨201, .likeInfo (likeCountOf pid db + 1) true⟩) := by
    simp [likePost, hp, likePostById, hu, likeCreate, h0, likeCountOf]
  have e2 : likePost idParam (some u)
      ({ db with likes := db.likes ++ [⟨db.nextLikeId, pid, u⟩], nextLikeId := db.nextLikeId + 1 } : Db) =
      (({ db with likes := db.likes ++ [⟨db.nextLikeId, pid, u⟩], nextLikeId := db.nextLikeId + 1 } : Db),
        ⟨400, .errMsg "すでにいいねしています"⟩) := by
    simp [likePost, hp, likePostById, hu, likeCreate, h0]
  refine ⟨e1, ?_, ?_, ?_⟩
  · rw [e1]
    exact e2
  · rw [e1]
  · rw [e1, e2]

/-- Witness for C1: liking post 1 as user u1 twice from the empty store. -/
theorem C1_like_twice_witness :
    likePost "1" (some "u1") emptyDb =
      ({ emptyDb with likes := emptyDb.likes ++ [⟨emptyDb.nextLikeId, 1, "u1"⟩], nextLikeId := emptyDb.nextLikeId + 1 },
        ⟨201, .likeInfo (likeCountOf 1 emptyDb + 1) true⟩) ∧
    likePost "1" (some "u1") (likePost "1" (some "u1") emptyDb).1 =
      ((likePost "1" (some "u1") emptyDb).1, ⟨400, .errMsg "すでにいいねしています"⟩) ∧
    (likePost "1" (some "u1") emptyDb).1.likes = emptyDb.likes ++ [⟨emptyDb.nextLikeId, 1, "u1"⟩] ∧
    likeCountOf 1 (likePost "1" (some "u1") (likePost "1" (some "u1") emptyDb).1).1 =
      likeCountOf 1 (likePost "1" (some "u1") emptyDb).1 :=
  C1_like_twice "1" "u1" 1 emptyDb (by decide) (by decide) (by decide)

/-- Claim C3: unliking a pair with no existing Like row deletes zero rows without
error, answers 200 with isLiked false, and leaves the store (hence every Like
row and the like count) unchanged. -/
theorem C3_unlike_idempotent (idParam : String) (u : String) (pid : Int) (db : Db)
    (hp : parseIntJs idParam = some pid) (hu : u ≠ "")
    (h0 : db.likes.any (fun l => l.postId == pid && l.userId == u) = false) :
    unlikePost idParam (some u) db = (db, ⟨200, .likeInfo (likeCountOf pid db) false⟩) := by
  have hall : ∀ l ∈ db.likes, (!(l.postId == pid && l.userId == u)) = true := by
    intro l hl
    have h1 := List.any_eq_false.mp h0 l hl
    have h2 : (l.postId == pid && l.userId == u) = false := Bool.eq_false_iff.mpr h1
    rw [h2]
    rfl
  have hfil : db.likes.filter (fun l => !(l.postId == pid && l.userId == u)) = db.likes :=
    List.filter_eq_self.mpr hall
  have e : likeDeleteMany pid u db = db := by
    unfold likeDeleteMany
    rw [hfil]
  simp [unlikePost, hp, unlikePostById, hu, e]

/-- Witness for C3: unliking post 1 as user u2, when only u1 has liked it. -/
theorem C3_unlike_idempotent_witness :
    unlikePost "1" (some "u2") dbTwo = (dbTwo, ⟨200, .likeInfo (likeCountOf 1 dbTwo) false⟩) :=
  C3_unlike_idempotent "1" "u2" 1 dbTwo (by decide) (by decide) (by decide)

/-- Inserting a post keeps the list a permutation, with the post on top. -/
theorem insertDesc_perm (x : Post) (l : List Post) : (insertDesc x l).Perm (x :: l) := by
  induction l with
  | nil => simp [insertDesc]
  | cons y ys ih =>
    by_cases hc : y.createdAt ≤ x.createdAt
    · simp [insertDesc, hc]
    · simp only [insertDesc, if_neg hc]
      exact (ih.cons y).trans (List.Perm.swap x y ys)

/-- The list endpoint's sort returns a permutation of the stored posts. -/
theorem sortByCreatedAtDesc_perm (l : List Post) : (sortByCreatedAtDesc l).Perm l := by
  induction l with
  | nil => simp [sortByCreatedAtDesc]
  | cons x xs ih =>
    exact (insertDesc_perm x (sortByCreatedAtDesc xs)).trans (ih.cons x)

/-- Stability of the insertion step: inserting a post whose id is below every
id already present preserves the createdAt-descending order with the
ascending-id tie-break. -/
theorem pairwise_insertDesc {x : Post} {l : List Post}
    (hl : l.Pairwise postOrder) (hx : ∀ y ∈ l, x.id < y.id) :
    (insertDesc x l).Pairwise postOrder := by
  induction l with
  | nil => simp [insertDesc]
  | cons y ys ih =>
    rcases List.pairwise_cons.mp hl with ⟨hy, hys⟩
    by_cases hc : y.createdAt ≤ x.createdAt
    · simp only [insertDesc, if_pos hc]
      refine List.pairwise_cons.mpr ⟨?_, hl⟩
      intro z hz
      rcases List.mem_cons.mp hz with rfl | hz
      · rcases lt_or_eq_of_le hc with h | h
        · exact Or.inl h
        · exact Or.inr ⟨h.symm, hx z (List.mem_cons_self z ys)⟩
      · rcases hy z hz with h | ⟨heq, _⟩
        · exact Or.inl (lt_of_lt_of_le h hc)
        · rcases lt_or_eq_of_le hc with h2 | h2
          · exact Or.inl (heq ▸ h2)
          · exact Or.inr ⟨h2.symm.trans heq, hx z (List.mem_cons_of_mem y hz)⟩
    · have hxy : x.createdAt < y.createdAt := lt_of_not_le hc
      simp only [insertDesc, if_neg hc]
      refine List.pairwise_cons.mpr
        ⟨?_, ih hys (fun z hz => hx z (List.mem_cons_of_mem y hz))⟩
      intro z hz
      have hz2 : z = x ∨ z ∈ ys := by
        have hmem := (insertDesc_perm x ys).mem_iff.mp hz
        simpa using hmem
      rcases hz2 with rfl | hz2
      · exact Or.inl hxy
      · exact hy z hz2

/-- When the stored posts carry strictly increasing ids (insertion order), the
sorted output is ordered by createdAt descending with the stable, ascending-id
tie-break. -/
theorem pairwise_sortByCreatedAtDesc {l : List Post}
    (h : l.Pairwise (fun a b => a.id < b.id)) :
    (sortByCreatedAtDesc l).Pairwise postOrder := by
  induction l with
  | nil => simp [sortByCreatedAtDesc]
  | cons x xs ih =>
    rcases List.pairwise_cons.mp h with ⟨hx, hxs⟩
    simp only [sortByCreatedAtDesc]
    exact pairwise_insertDesc (ih hxs)
      (fun y hy => hx y ((sortByCreatedAtDesc_perm xs).mem_iff.mp hy))

/-- Claim C4: on a store whose posts were inserted with increasing ids, the
list endpoint returns all posts, ordered by createdAt descending with a stable
tie-break by insertion order (ascending id) for colliding timestamps. -/
theorem C4_list_ordered (uq : Option String) (db : Db)
    (hids : db.posts.Pairwise (fun a b => a.id < b.id)) :
    ∃ ps, listPosts uq db = ⟨200, .posts ps⟩ ∧
      ps.Pairwise formattedOrder ∧
      (ps.map (fun f => f.id)).Perm (db.posts.map (fun p => p.id)) := by
  refine ⟨(sortByCreatedAtDesc db.posts).map (formatPost uq db.likes), rfl, ?_, ?_⟩
  · refine List.pairwise_map.mpr ?_
    exact (pairwise_sortByCreatedAtDesc hids).imp (fun h => h)
  · rw [List.map_map]
    exact (sortByCreatedAtDesc_perm db.posts).map (fun p => p.id)

/-- Witness for C4 on a store with two posts sharing one createdAt value. -/
theorem C4_list_ordered_witness :
    ∃ ps, listPosts none dbTwo = ⟨200, .posts ps⟩ ∧
      ps.Pairwise formattedOrder ∧
      (ps.map (fun f => f.id)).Perm (dbTwo.posts.map (fun p => p.id)) :=
  C4_list_ordered none dbTwo (by decide)

/-- Claim C5: every row the list endpoint returns carries likeCount equal to
the number of Like rows referencing that post, and isLiked true exactly when a
(truthy) userId query value was supplied and a Like row exists for that pair;
without a userId every row has isLiked false. -/
theorem C5_like_metadata (uq : Option String) (db : Db)
    (hq : ∀ u, uq = some u → u ≠ "") :
    ∀ ps, listPosts uq db = ⟨200, .posts ps⟩ →
      ∀ f ∈ ps,
        f.likeCount = (db.likes.filter (fun l => l.postId == (f.id : Int))).length ∧
        (f.isLiked = true ↔ ∃ u, uq = some u ∧
          db.likes.any (fun l => l.postId == (f.id : Int) && l.userId == u) = true) ∧
        (uq = none → f.isLiked = false) := by
  intro ps hps f hf
  have hps2 : ps = (sortByCreatedAtDesc db.posts).map (formatPost uq db.likes) := by
    have hX := congrArg Response.body hps
    exact (ResBody.posts.inj hX).symm
  subst hps2
  rcases List.mem_map.mp hf with ⟨p, _, rfl⟩
  refine ⟨rfl, ?_, ?_⟩
  · cases uq with
    | none =>
      simp [formatPost]
    | some u =>
      have hu := hq u rfl
      simp [formatPost, hu]
  · intro h
    subst h
    rfl

/-- Witness for C5: with the query userId u1 on a store where u1 likes post 1,
the first returned row has likeCount 1 and isLiked true by the relevant Like
row, and would have isLiked false had no userId been supplied. -/
theorem C5_like_metadata_witness :
    (1 : Nat) = (dbTwo.likes.filter (fun l => l.postId == ((1 : Nat) : Int))).length ∧
    (true = true ↔ ∃ u, (some "u1" : Option String) = some u ∧
      dbTwo.likes.any (fun l => l.postId == ((1 : Nat) : Int) && l.userId == u) = true) ∧
    ((some "u1" : Option String) = none → true = false) := by
  have h := C5_like_metadata (some "u1") dbTwo
    (by intro u hh; injection hh with h2; subst h2; decide)
    ((sortByCreatedAtDesc dbTwo.posts).map (formatPost (some "u1") dbTwo.likes)) rfl
    (formatPost (some "u1") dbTwo.likes ⟨1, "a", none, none, 5, 5⟩) (by decide)
  exact h

/-- Claim C7: deleting a post whose parsed id is absent from storage yields
404 (mapped from the record-not-found signal); deleting an existing post
yields 200 with a confirmation message and a subsequent list no longer
contains that post; a non-numeric id yields 400. -/
theorem C7_delete_post (idParam : String) (db : Db) :
    (parseIntJs idParam = none →
      deletePost idParam db = (db, ⟨400, .errMsg "無効なIDです"⟩)) ∧
    (∀ v, parseIntJs idParam = some v →
      (db.posts.any (fun p => (p.id : Int) == v) = false →
        deletePost idParam db = (db, ⟨404, .errMsg "投稿が見つかりません"⟩)) ∧
      (db.posts.any (fun p => (p.id : Int) == v) = true →
        (deletePost idParam db).2 = ⟨200, .message "投稿を削除しました"⟩ ∧
        ∀ uq ps, listPosts uq (deletePost idParam db).1 = ⟨200, .posts ps⟩ →
          ∀ f ∈ ps, (f.id : Int) ≠ v)) := by
  refine ⟨?_, ?_⟩
  · intro h
    simp [deletePost, h]
  · intro v hv
    refine ⟨?_, ?_⟩
    · intro h
      simp [deletePost, hv, deletePostById, postDelete, h]
    · intro h
      have e : deletePost idParam db =
          ({ db with posts := db.posts.filter (fun p => !((p.id : Int) == v)) },
            ⟨200, .message "投稿を削除しました"⟩) := by
        simp [deletePost, hv, deletePostById, postDelete, h]
      refine ⟨by rw [e], ?_⟩
      intro uq ps hps f hf
      rw [e] at hps
      have hps2 : ps = (sortByCreatedAtDesc
          (db.posts.filter (fun p => !((p.id : Int) == v)))).map (formatPost uq db.likes) := by
        have hX := congrArg Response.body hps
        exact (ResBody.posts.inj hX).symm
      subst hps2
      rcases List.mem_map.mp hf with ⟨p, hp, rfl⟩
      have hp2 : p ∈ db.posts.filter (fun p => !((p.id : Int) == v)) :=
        (sortByCreatedAtDesc_perm _).mem_iff.mp hp
      have hkeep := List.of_mem_filter hp2
      simpa using hkeep

/-- Witness for C7: a non-numeric id, a missing id, and a present id. -/
theorem C7_delete_post_witness :
    deletePost "abc" emptyDb = (emptyDb, ⟨400, .errMsg "無効なIDです"⟩) ∧
    deletePost "7" emptyDb = (emptyDb, ⟨404, .errMsg "投稿が見つかりません"⟩) ∧
    (deletePost "1" dbOne).2 = ⟨200, .message "投稿を削除しました"⟩ :=
  ⟨(C7_delete_post "abc" emptyDb).1 (by decide),
   ((C7_delete_post "7" emptyDb).2 7 (by decide)).1 (by decide),
   (((C7_delete_post "1" dbOne).2 1 (by decide)).2 (by decide)).1⟩

/-- A decimal digit is not one of the whitespace characters parseInt skips. -/
theorem isJsSpace_of_isDigit {c : Char} (h : c.isDigit = true) : isJsSpace c = false := by
  rcases Bool.eq_false_or_eq_true (isJsSpace c) with ht | hf
  · exfalso
    simp [isJsSpace] at ht
    rcases ht with ((((rfl | rfl) | rfl) | rfl) | rfl) | rfl <;> exact absurd h (by decide)
  · exact hf

/-- A decimal digit is not the minus sign. -/
theorem isDigit_ne_minus {c : Char} (h : c.isDigit = true) : c ≠ '-' :=
  fun he => by subst he; exact absurd h (by decide)

/-- A decimal digit is not the plus sign. -/
theorem isDigit_ne_plus {c : Char} (h : c.isDigit = true) : c ≠ '+' :=
  fun he => by subst he; exact absurd h (by decide)

/-- Taking digits from a digit block followed by a non-digit yields the block. -/
theorem takeWhile_digits_append (ds : List Char) (c0 : Char) (r0 : List Char)
    (hdig : ∀ c ∈ ds, c.isDigit = true) (hc0 : c0.isDigit = false) :
    (ds ++ c0 :: r0).takeWhile Char.isDigit = ds := by
  induction ds with
  | nil => simp [List.takeWhile_cons, hc0]
  | cons d ds' ih =>
    have hd := hdig d (List.mem_cons_self d ds')
    simp [List.takeWhile_cons, hd, ih (fun c hc => hdig c (List.mem_cons_of_mem d hc))]

/-- On a string made of a nonempty digit block followed by a non-digit
character (and anything after), parseInt returns the value of the block —
unless the string starts with the hex marker 0x/0X, which the hypothesis
excludes (there radix-less parseInt switches to base 16). -/
theorem parseIntJs_digit_prefix (ds : List Char) (c0 : Char) (r0 : List Char)
    (hne : ds ≠ []) (hdig : ∀ c ∈ ds, c.isDigit = true) (hc0 : c0.isDigit = false)
    (hhex : ds = ['0'] → c0 ≠ 'x' ∧ c0 ≠ 'X') :
    parseIntJs (String.mk (ds ++ c0 :: r0)) = some (digitsToNat ds) := by
  obtain ⟨d, ds', rfl⟩ := List.exists_cons_of_ne_nil hne
  have hd : d.isDigit = true := hdig d (List.mem_cons_self d ds')
  have hsp : isJsSpace d = false := isJsSpace_of_isDigit hd
  have hdm := isDigit_ne_minus hd
  have hdp := isDigit_ne_plus hd
  have htw := takeWhile_digits_append (d :: ds') c0 r0 hdig hc0
  simp only [List.cons_append] at htw
  have hhp : hexPrefix ((d :: ds') ++ c0 :: r0) = none := by
    cases ds' with
    | nil =>
      by_cases hd0 : d = '0'
      · subst hd0
        rcases hhex rfl with ⟨hx, hX⟩
        simp [hexPrefix, hx, hX]
      · simp [hexPrefix, hd0]
    | cons d2 ds'' =>
      have hd2 : d2.isDigit = true := hdig d2 (by simp)
      have hx : d2 ≠ 'x' := fun he => by subst he; exact absurd hd2 (by decide)
      have hX : d2 ≠ 'X' := fun he => by subst he; exact absurd hd2 (by decide)
      simp [hexPrefix, hx, hX]
  simp only [List.cons_append] at hhp
  simp [parseIntJs, parseSign, List.dropWhile_cons, hsp, hdm, hdp, hhp, htw]

/-- The delete handler, once the id parses, never answers 400. -/
theorem deletePostById_status_ne_400 (v : Int) (db : Db) :
    (deletePostById v db).2.status ≠ 400 := by
  rcases Bool.eq_false_or_eq_true (db.posts.any (fun p => (p.id : Int) == v)) with h | h <;>
    simp [deletePostById, postDelete, h]

/-- The like handler, once the id parses, never answers with the invalid-id
400 response (its own 400s carry other messages). -/
theorem likePostById_ne_invalidId (v : Int) (uid : Option String) (db : Db) :
    (likePostById v uid db).2 ≠ ⟨400, .errMsg "無効な投稿IDです"⟩ := by
  cases uid with
  | none => simp [likePostById]
  | some u =>
    by_cases hu : u = ""
    · simp [likePostById, hu]
    · cases h2 : likeCreate v u db with
      | error e =>
        cases e with
        | P2002 => simp [likePostById, hu, h2]
        | P2025 => simp [likePostById, hu, h2]
      | ok db2 => simp [likePostById, hu, h2]

/-- The unlike handler, once the id parses, never answers with the invalid-id
400 response. -/
theorem unlikePostById_ne_invalidId (v : Int) (uid : Option String) (db : Db) :
    (unlikePostById v uid db).2 ≠ ⟨400, .errMsg "無効な投稿IDです"⟩ := by
  cases uid with
  | none => simp [unlikePostById]
  | some u =>
    by_cases hu : u = ""
    · simp [unlikePostById, hu]
    · simp [unlikePostById, hu]

/-- Counterexample for C10, on three concrete inputs. The id "12abc" does
parse to 12, yet a like request carrying it is still answered 400 when the
body has no userId, so "the handler does not return 400" fails as literally
stated. Moreover the digit-then-garbage segments "0x12" and "0x" hit
radix-less parseInt's hex autodetect: "0x12" parses to 18, not to its numeric
prefix 0, and "0x" parses to NaN, so deleting at "0x" does return the
invalid-id 400. -/
theorem C10_counterexample :
    parseIntJs "12abc" = some 12 ∧
    likePost "12abc" none emptyDb = (emptyDb, ⟨400, .errMsg "ユーザーIDが必要です"⟩) ∧
    parseIntJs "0x12" = some 18 ∧ (some 18 : Option Int) ≠ some 0 ∧
    parseIntJs "0x" = none ∧
    deletePost "0x" emptyDb = (emptyDb, ⟨400, .errMsg "無効なIDです"⟩) :=
  ⟨by decide, by decide, by decide, by decide, by decide, by decide⟩

/-- Claim C10 (amended): on an :id segment made of digits followed by
non-numeric characters — except the hex-marker segments "0x…"/"0X…", where
radix-less parseInt switches to base 16, and for prefix values below 2^53,
where a JS double is exact — parseInt yields the numeric prefix, none of the
three handlers answers the invalid-id 400 (delete never answers 400 at all),
and each handler behaves exactly as it would on the post with that numeric id
(like/unlike may still answer 400 for a missing userId or a duplicate like). -/
theorem C10_trailing_garbage_id (ds : List Char) (c0 : Char) (r0 : List Char)
    (uid : Option String) (db : Db)
    (hne : ds ≠ []) (hdig : ∀ c ∈ ds, c.isDigit = true) (hc0 : c0.isDigit = false)
    (hhex : ds = ['0'] → c0 ≠ 'x' ∧ c0 ≠ 'X') (_hsz : digitsToNat ds < 2 ^ 53) :
    parseIntJs (String.mk (ds ++ c0 :: r0)) = some (digitsToNat ds) ∧
    deletePost (String.mk (ds ++ c0 :: r0)) db = deletePostById ((digitsToNat ds : Int)) db ∧
    (deletePost (String.mk (ds ++ c0 :: r0)) db).2.status ≠ 400 ∧
    likePost (String.mk (ds ++ c0 :: r0)) uid db = likePostById ((digitsToNat ds : Int)) uid db ∧
    (likePost (String.mk (ds ++ c0 :: r0)) uid db).2 ≠ ⟨400, .errMsg "無効な投稿IDです"⟩ ∧
    unlikePost (String.mk (ds ++ c0 :: r0)) uid db = unlikePostById ((digitsToNat ds : Int)) uid db ∧
    (unlikePost (String.mk (ds ++ c0 :: r0)) uid db).2 ≠ ⟨400, .errMsg "無効な投稿IDです"⟩ := by
  have hp := parseIntJs_digit_prefix ds c0 r0 hne hdig hc0 hhex
  have e1 : deletePost (String.mk (ds ++ c0 :: r0)) db =
      deletePostById ((digitsToNat ds : Int)) db := by
    simp [deletePost, hp]
  have e2 : likePost (String.mk (ds ++ c0 :: r0)) uid db =
      likePostById ((digitsToNat ds : Int)) uid db := by
    simp [likePost, hp]
  have e3 : unlikePost (String.mk (ds ++ c0 :: r0)) uid db =
      unlikePostById ((digitsToNat ds : Int)) uid db := by
    simp [unlikePost, hp]
  refine ⟨hp, e1, ?_, e2, ?_, e3, ?_⟩
  · rw [e1]
    exact deletePostById_status_ne_400 _ _
  · rw [e2]
    exact likePostById_ne_invalidId _ _ _
  · rw [e3]
    exact unlikePostById_ne_invalidId _ _ _

/-- Witness for C10 at the id segment "12ab" on a store holding post 1. -/
theorem C10_trailing_garbage_id_witness :
    parseIntJs (String.mk (['1', '2'] ++ 'a' :: ['b'])) = some (digitsToNat ['1', '2']) ∧
    deletePost (String.mk (['1', '2'] ++ 'a' :: ['b'])) dbOne =
      deletePostById ((digitsToNat ['1', '2'] : Int)) dbOne ∧
    (deletePost (String.mk (['1', '2'] ++ 'a' :: ['b'])) dbOne).2.status ≠ 400 ∧
    likePost (String.mk (['1', '2'] ++ 'a' :: ['b'])) (some "u1") dbOne =
      likePostById ((digitsToNat ['1', '2'] : Int)) (some "u1") dbOne ∧
    (likePost (String.mk (['1', '2'] ++ 'a' :: ['b'])) (some "u1") dbOne).2 ≠
      ⟨400, .errMsg "無効な投稿IDです"⟩ ∧
    unlikePost (String.mk (['1', '2'] ++ 'a' :: ['b'])) (some "u1") dbOne =
      unlikePostById ((digitsToNat ['1', '2'] : Int)) (some "u1") dbOne ∧
    (unlikePost (String.mk (['1', '2'] ++ 'a' :: ['b'])) (some "u1") dbOne).2 ≠
      ⟨400, .errMsg "無効な投稿IDです"⟩ :=
  C10_trailing_garbage_id ['1', '2'] 'a' ['b'] (some "u1") dbOne
    (by decide) (by decide) (by decide) (by decide) (by decide)
